import Mathlib

/-!
Shallow embedding of the fertilizer-recommendation rule engine in `src/app.py`
(the functions `interpret`, `round_up`, the tables `baseline_npk`,
`FERT_N_CONTENT`, `ref_thresholds`, and `recommend_for_farmer`).

Machine arithmetic: the Python code computes with IEEE doubles; the embedding
uses exact rationals (`ℚ`).  Every decimal literal appearing in the source is
exactly representable as a rational, and none of the verified properties
depends on rounding of intermediate results.

A Python value arriving in the `inputs` dict is either absent (`dict.get`
returns `None`), a number, or a string.
-/

/-- A raw reading as it arrives from the request: `pynone` models the Python
value `None` (the result of `inputs.get(key)` for a missing key), `num` a numeric
value, `str` a string value. -/
inductive PyVal where
  | pynone : PyVal
  | num : ℚ → PyVal
  | str : String → PyVal
deriving DecidableEq, Repr

/-- The Python method `str.strip()` with no argument: remove leading and trailing
whitespace (ASCII model). -/
def pyStrip (s : String) : String :=
  ⟨((s.data.dropWhile Char.isWhitespace).reverse.dropWhile Char.isWhitespace).reverse⟩

/-- Lowercase one character (ASCII model of the Python method `str.lower()`). -/
def pyLowerChar (c : Char) : Char :=
  if 'A' ≤ c ∧ c ≤ 'Z' then Char.ofNat (c.toNat + 32) else c

/-- The Python method `str.lower()` (ASCII model). -/
def pyLower (s : String) : String :=
  ⟨s.data.map pyLowerChar⟩

/-- Numeric value of a run of decimal digits. -/
def digitsVal (cs : List Char) : ℕ :=
  cs.foldl (fun a c => 10 * a + (c.toNat - 48)) 0

/-- All characters are decimal digits. -/
def allDigits (cs : List Char) : Bool :=
  cs.all fun c => c.isDigit

/-- Mantissa of a Python float literal: digits, optionally with one decimal
point, at least one digit overall. -/
def parseMantissa (cs : List Char) : Option ℚ :=
  match cs.splitOn '.' with
  | [ip] =>
      if ip ≠ [] ∧ allDigits ip then some (digitsVal ip) else none
  | [ip, fp] =>
      if (ip ≠ [] ∨ fp ≠ []) ∧ allDigits ip ∧ allDigits fp then
        some ((digitsVal ip : ℚ) + (digitsVal fp : ℚ) / (10 : ℚ) ^ fp.length)
      else none
  | _ => none

/-- Exponent part of a Python float literal (after the `e`). -/
def parseExp (cs : List Char) : Option ℤ :=
  match cs with
  | '+' :: rest => if rest ≠ [] ∧ allDigits rest then some (digitsVal rest : ℤ) else none
  | '-' :: rest => if rest ≠ [] ∧ allDigits rest then some (-(digitsVal rest : ℤ)) else none
  | _ => if cs ≠ [] ∧ allDigits cs then some (digitsVal cs : ℤ) else none

/-- Unsigned part of a Python float literal: mantissa with optional
`e`-exponent. -/
def parseUnsignedFloat (cs : List Char) : Option ℚ :=
  match cs.splitOn 'e' with
  | [m] => parseMantissa m
  | [m, e] => do
      let mv ← parseMantissa m
      let ev ← parseExp e
      some (mv * (10 : ℚ) ^ ev)
  | _ => none

/-- Model of the Python call `float(s)` on a string: surrounding whitespace is
ignored and the exponent marker is case-insensitive, so we parse the trimmed,
lowercased string; an optional sign, then mantissa and exponent.  Returns
`none` when `float` would raise `ValueError`. -/
def pyFloatOfString (s : String) : Option ℚ :=
  match (pyLower (pyStrip s)).data with
  | '+' :: rest => parseUnsignedFloat rest
  | '-' :: rest => (parseUnsignedFloat rest).map (fun q => -q)
  | cs => parseUnsignedFloat cs

/-- `interpret(value, low, high)` from `src/app.py` lines 8-16.  A numeric
value passes through unchanged; a string is trimmed and lowercased, the
qualitative tokens map to scaled thresholds, anything else is parsed with
`float`; `None` (absent key) yields `None` (`str(None) = "none"` matches no
token and `float(None)` raises). -/
def interpret (value : PyVal) (low high : ℚ) : Option ℚ :=
  match value with
  | .pynone => none
  | .num x => some x
  | .str s =>
      let v := pyLower (pyStrip s)
      if v = "low" ∨ v = "l" then some (low * 0.8)
      else if v = "medium" ∨ v = "med" ∨ v = "m" then some ((low + high) / 2)
      else if v = "high" ∨ v = "h" then some (high * 1.2)
      else pyFloatOfString s

/-- `round_up` from `src/app.py` lines 18-19: `math.ceil`, which returns an
`int` in Python 3. -/
def round_up (x : ℚ) : ℤ := Int.ceil x

/-- `baseline_npk` from `src/app.py` lines 21-27, as the partial lookup the
code performs: the `crop not in baseline_npk` membership test together with
`baseline_npk[crop]`. -/
def baseline_npk (crop : String) : Option (ℚ × ℚ × ℚ) :=
  if crop = "wheat" then some (120, 60, 40)
  else if crop = "paddy" then some (150, 60, 40)
  else if crop = "maize" then some (150, 75, 50)
  else if crop = "cotton" then some (100, 50, 50)
  else if crop = "mustard" then some (80, 40, 30)
  else none

/-- `ref_thresholds` from `src/app.py` lines 39-43.  The code only ever looks
up the twelve keys present in the dict; the final branch is the `"EC"`
entry. -/
def ref_thresholds (k : String) : ℚ × ℚ :=
  if k = "N" then (280, 500)
  else if k = "P" then (10, 25)
  else if k = "K" then (120, 280)
  else if k = "S" then (10, 20)
  else if k = "Zn" then (0.6, 1.5)
  else if k = "Fe" then (4.5, 10)
  else if k = "Cu" then (0.2, 1)
  else if k = "Mn" then (2, 5)
  else if k = "B" then (0.5, 1)
  else if k = "OC" then (0.5, 0.8)
  else if k = "pH" then (6.5, 7.5)
  else (0, 4)

/-- Nutrient content fractions from `FERT_N_CONTENT`, `src/app.py` lines
29-37. -/
def FERT_urea_N : ℚ := 0.46
/-- DAP nitrogen fraction (`FERT_N_CONTENT["dap"]["N"]`). -/
def FERT_dap_N : ℚ := 0.18
/-- DAP phosphate fraction (`FERT_N_CONTENT["dap"]["P2O5"]`). -/
def FERT_dap_P2O5 : ℚ := 0.46
/-- MOP potash fraction (`FERT_N_CONTENT["mop"]["K2O"]`). -/
def FERT_mop_K2O : ℚ := 0.60
/-- Gypsum sulfur fraction (`FERT_N_CONTENT["gypsum"]["S"]`). -/
def FERT_gypsum_S : ℚ := 0.18
/-- Zinc-sulfate zinc fraction (`FERT_N_CONTENT["znso4"]["Zn"]`). -/
def FERT_znso4_Zn : ℚ := 0.21
/-- Borax boron fraction (`FERT_N_CONTENT["borax"]["B"]`). -/
def FERT_borax_B : ℚ := 0.11
/-- Compost organic-carbon fraction (`FERT_N_CONTENT["compost"]["OC"]`). -/
def FERT_compost_OC : ℚ := 0.5

/-- Python truthiness of an interpreted reading followed by a `<` comparison:
models the guards `if X and X < t:` in `recommend_for_farmer`.  `None` and
`0.0` are falsy, so a missing reading and a reading of exactly `0` both fail
the guard. -/
def ltTrigger (x : Option ℚ) (t : ℚ) : Bool :=
  match x with
  | some v => decide (v ≠ 0 ∧ v < t)
  | none => false

/-- Python truthiness followed by a `>` comparison: models the guards
`if X and X > t:`. -/
def gtTrigger (x : Option ℚ) (t : ℚ) : Bool :=
  match x with
  | some v => decide (v ≠ 0 ∧ v > t)
  | none => false

/-- The Python expression `X if X else 0` applied to an interpreted reading:
the reading when truthy, otherwise `0`.  (Numerically this coincides with
`Option.getD x 0`, since the only falsy float is `0.0` itself.) -/
def pyOrZero (x : Option ℚ) : ℚ :=
  match x with
  | none => 0
  | some v => if v = 0 then 0 else v

/-- The gap computation of `recommend_for_farmer`, `src/app.py` lines 64-74:
raw gaps `max(0, baseline - (X if X else 0))`, then the organic-carbon
adjustment on nitrogen, then the salinity adjustment on all three. -/
def needsOf (base : ℚ × ℚ × ℚ) (N P K OC EC : Option ℚ) : ℚ × ℚ × ℚ :=
  let need_N := max 0 (base.1 - pyOrZero N)
  let need_P2O5 := max 0 (base.2.1 - pyOrZero P)
  let need_K2O := max 0 (base.2.2 - pyOrZero K)
  let need_N := if ltTrigger OC (ref_thresholds "OC").1 then need_N * 1.1 else need_N
  if gtTrigger EC 4 then (need_N * 0.8, need_P2O5 * 0.8, need_K2O * 0.8)
  else (need_N, need_P2O5, need_K2O)

/-- The `"DAP_kg/ha"` entry, `src/app.py` lines 79-85. -/
def dap_needed (need_P2O5 : ℚ) : Option ℤ :=
  if need_P2O5 > 0 then some (round_up (need_P2O5 / FERT_dap_P2O5)) else none

/-- The nitrogen credit `N_from_dap`, `src/app.py` lines 81 and 85: the DAP
quantity times its nitrogen fraction when DAP is applied, `0` otherwise. -/
def N_from_dap (need_P2O5 : ℚ) : ℚ :=
  match dap_needed need_P2O5 with
  | some d => (d : ℚ) * FERT_dap_N
  | none => 0

/-- `remaining_N`, `src/app.py` line 87. -/
def remaining_N (need_N need_P2O5 : ℚ) : ℚ :=
  max 0 (need_N - N_from_dap need_P2O5)

/-- The `"Urea_kg/ha"` entry, `src/app.py` lines 88-90. -/
def urea_needed (need_N need_P2O5 : ℚ) : Option ℤ :=
  if remaining_N need_N need_P2O5 > 0 then
    some (round_up (remaining_N need_N need_P2O5 / FERT_urea_N))
  else none

/-- The `"MOP_kg/ha"` entry, `src/app.py` lines 93-95. -/
def mop_needed (need_K2O : ℚ) : Option ℤ :=
  if need_K2O > 0 then some (round_up (need_K2O / FERT_mop_K2O)) else none

/-- The `"Gypsum_kg/ha"` entry, `src/app.py` lines 98-100: guarded by
`if S and S < ref_thresholds["S"][0]`. -/
def gypsum_needed (S : Option ℚ) : Option ℤ :=
  if ltTrigger S (ref_thresholds "S").1 then
    some (round_up (((ref_thresholds "S").1 - S.getD 0) / FERT_gypsum_S))
  else none

/-- The `"ZnSO4_kg/ha"` entry, `src/app.py` lines 103-105. -/
def znso4_needed (Zn : Option ℚ) : Option ℤ :=
  if ltTrigger Zn (ref_thresholds "Zn").1 then
    some (round_up (((ref_thresholds "Zn").1 - Zn.getD 0) / FERT_znso4_Zn))
  else none

/-- The `"Borax_kg/ha"` entry, `src/app.py` lines 108-110. -/
def borax_needed (B : Option ℚ) : Option ℤ :=
  if ltTrigger B (ref_thresholds "B").1 then
    some (round_up (((ref_thresholds "B").1 - B.getD 0) / FERT_borax_B))
  else none

/-- `compost_needed`, `src/app.py` line 114 (in tons). -/
def compost_units (OC : Option ℚ) : Option ℤ :=
  if ltTrigger OC (ref_thresholds "OC").1 then
    some (round_up (((ref_thresholds "OC").1 - OC.getD 0) / FERT_compost_OC))
  else none

/-- The `fert_plan` dict built by `recommend_for_farmer`.  Each field models
one key: `dap ↦ "DAP_kg/ha"`, `urea ↦ "Urea_kg/ha"`, `mop ↦ "MOP_kg/ha"`,
`gypsum ↦ "Gypsum_kg/ha"`, `znso4 ↦ "ZnSO4_kg/ha"`, `borax ↦ "Borax_kg/ha"`,
`compost ↦ "Compost_kg/ha"`; `none` means the key is absent.  These seven
keys are the only ones the code can ever write. -/
structure Plan where
  dap : Option ℤ
  urea : Option ℤ
  mop : Option ℤ
  gypsum : Option ℤ
  znso4 : Option ℤ
  borax : Option ℤ
  compost : Option ℤ
deriving DecidableEq, Repr

/-- The complete dosage plan, `src/app.py` lines 76-116.  The
`"Compost_kg/ha"` value is `compost_needed * 1000` (line 115). -/
def planOf (needs : ℚ × ℚ × ℚ) (S Zn B OC : Option ℚ) : Plan where
  dap := dap_needed needs.2.1
  urea := urea_needed needs.1 needs.2.1
  mop := mop_needed needs.2.2
  gypsum := gypsum_needed S
  znso4 := znso4_needed Zn
  borax := borax_needed B
  compost := (compost_units OC).map (fun c => c * 1000)

/-- Message for the DAP rule, `src/app.py` line 83. -/
def dapMsg (crop_name : String) (d : ℤ) : String :=
  "Apply " ++ toString d ++ " kg/ha DAP because phosphorus is below recommended level for " ++ crop_name ++ "."

/-- Message for the Urea rule, `src/app.py` line 91. -/
def ureaMsg (crop_name : String) (u : ℤ) : String :=
  "Apply " ++ toString u ++ " kg/ha Urea because nitrogen is below recommended level for " ++ crop_name ++ "."

/-- Message for the MOP rule, `src/app.py` line 96. -/
def mopMsg (crop_name : String) (m : ℤ) : String :=
  "Apply " ++ toString m ++ " kg/ha MOP because potassium is below recommended level for " ++ crop_name ++ "."

/-- Message for the Gypsum rule, `src/app.py` line 101. -/
def gypsumMsg (crop_name : String) (g : ℤ) : String :=
  "Apply " ++ toString g ++ " kg/ha Gypsum because soil sulphur is low for " ++ crop_name ++ "."

/-- Message for the ZnSO4 rule, `src/app.py` line 106. -/
def znso4Msg (z : ℤ) : String :=
  "Apply " ++ toString z ++ " kg/ha Zinc Sulfate because soil zinc is below recommended levels."

/-- Message for the Borax rule, `src/app.py` line 111. -/
def boraxMsg (b : ℤ) : String :=
  "Apply " ++ toString b ++ " kg/ha Borax because soil boron is below recommended levels."

/-- Message for the Compost rule, `src/app.py` line 116 (quantity in tons,
i.e. `compost_needed`, not the stored kg value). -/
def compostMsg (c : ℤ) : String :=
  "Apply approx " ++ toString c ++ " tons/ha Compost/FYM to improve soil organic matter."

/-- Iron advisory, `src/app.py` line 119. -/
def feMsg : String := "Iron low: consider foliar Fe spray because soil Fe is insufficient."

/-- Copper advisory, `src/app.py` line 121. -/
def cuMsg : String := "Copper low: consider foliar Cu spray because soil Cu is insufficient."

/-- Manganese advisory, `src/app.py` line 123. -/
def mnMsg : String := "Manganese low: consider foliar Mn spray because soil Mn is insufficient."

/-- Acidic-soil advisory, `src/app.py` line 126. -/
def acidMsg : String := "Soil acidic: apply lime to raise pH."

/-- Alkaline-soil advisory, `src/app.py` line 128. -/
def alkMsg : String := "Soil alkaline: apply gypsum or acidifying measures to lower pH."

/-- Salinity advisory, `src/app.py` line 131. -/
def salinityMsg : String := "High salinity: grow salt-tolerant crops and improve irrigation."

/-- The twelve message-producing rules of `recommend_for_farmer` in source
order (lines 79-131): DAP, Urea, MOP, Gypsum, ZnSO4, Borax, Compost, Fe, Cu,
Mn, pH, EC.  Each slot is `some` exactly when the corresponding `if` block
appends its message; the pH slot covers the `if/elif` pair of lines
125-128. -/
def ruleMessages (crop_name : String) (needs : ℚ × ℚ × ℚ)
    (S Zn Fe Cu Mn B OC pH EC : Option ℚ) : List (Option String) :=
  [ (dap_needed needs.2.1).map (dapMsg crop_name),
    (urea_needed needs.1 needs.2.1).map (ureaMsg crop_name),
    (mop_needed needs.2.2).map (mopMsg crop_name),
    (gypsum_needed S).map (gypsumMsg crop_name),
    (znso4_needed Zn).map znso4Msg,
    (borax_needed B).map boraxMsg,
    (compost_units OC).map compostMsg,
    if ltTrigger Fe (ref_thresholds "Fe").1 then some feMsg else none,
    if ltTrigger Cu (ref_thresholds "Cu").1 then some cuMsg else none,
    if ltTrigger Mn (ref_thresholds "Mn").1 then some mnMsg else none,
    if ltTrigger pH 6 then some acidMsg
      else if gtTrigger pH 8.5 then some alkMsg else none,
    if gtTrigger EC 4 then some salinityMsg else none ]

/-- The `messages` list built by `recommend_for_farmer`: the code starts from
`[]` and appends each fired rule's message in source order, which is the
concatenation of the fired entries of `ruleMessages`. -/
def messagesOf (crop_name : String) (needs : ℚ × ℚ × ℚ)
    (S Zn Fe Cu Mn B OC pH EC : Option ℚ) : List String :=
  (ruleMessages crop_name needs S Zn Fe Cu Mn B OC pH EC).reduceOption

/-- The body of `recommend_for_farmer` after crop validation and reading
interpretation, `src/app.py` lines 64-133: gap computation, dosing and
message composition over the interpreted readings. -/
def runEngine (crop_name : String) (base : ℚ × ℚ × ℚ)
    (N P K S Zn Fe Cu Mn B OC pH EC : Option ℚ) : List String × Plan :=
  let needs := needsOf base N P K OC EC
  (messagesOf crop_name needs S Zn Fe Cu Mn B OC pH EC, planOf needs S Zn B OC)

/-- The `inputs` dict restricted to the twelve keys the engine reads
(`src/app.py` lines 51-62); a key missing from the request is `pynone`,
matching `dict.get` returning `None`. -/
structure Inputs where
  N : PyVal
  P : PyVal
  K : PyVal
  S : PyVal
  Zn : PyVal
  Fe : PyVal
  Cu : PyVal
  Mn : PyVal
  B : PyVal
  OC : PyVal
  pH : PyVal
  EC : PyVal
deriving DecidableEq, Repr

/-- `recommend_for_farmer` from `src/app.py` lines 45-133.  The Python
function raises `ValueError(f"Unsupported crop: {crop}")` for an unknown
crop; here that is the `Except.error` branch. -/
def recommend_for_farmer (inputs : Inputs) (crop_name : String) :
    Except String (List String × Plan) :=
  let crop := pyLower crop_name
  match baseline_npk crop with
  | none => .error ("Unsupported crop: " ++ crop)
  | some base =>
      .ok (runEngine crop_name base
        (interpret inputs.N (ref_thresholds "N").1 (ref_thresholds "N").2)
        (interpret inputs.P (ref_thresholds "P").1 (ref_thresholds "P").2)
        (interpret inputs.K (ref_thresholds "K").1 (ref_thresholds "K").2)
        (interpret inputs.S (ref_thresholds "S").1 (ref_thresholds "S").2)
        (interpret inputs.Zn (ref_thresholds "Zn").1 (ref_thresholds "Zn").2)
        (interpret inputs.Fe (ref_thresholds "Fe").1 (ref_thresholds "Fe").2)
        (interpret inputs.Cu (ref_thresholds "Cu").1 (ref_thresholds "Cu").2)
        (interpret inputs.Mn (ref_thresholds "Mn").1 (ref_thresholds "Mn").2)
        (interpret inputs.B (ref_thresholds "B").1 (ref_thresholds "B").2)
        (interpret inputs.OC (ref_thresholds "OC").1 (ref_thresholds "OC").2)
        (interpret inputs.pH (ref_thresholds "pH").1 (ref_thresholds "pH").2)
        (interpret inputs.EC (ref_thresholds "EC").1 (ref_thresholds "EC").2))

/-- The five supported crop names, the keys of `baseline_npk`. -/
def supportedCrops : List String := ["wheat", "paddy", "maize", "cotton", "mustard"]

/-- An all-absent request: every `inputs.get` returns `None`. -/
def emptyInputs : Inputs :=
  ⟨.pynone, .pynone, .pynone, .pynone, .pynone, .pynone,
   .pynone, .pynone, .pynone, .pynone, .pynone, .pynone⟩

/-! ## Helper lemmas -/

/-- `X if X else 0` agrees with `Option.getD x 0`: the only falsy float is
`0.0`, and replacing it by `0` is the identity. -/
theorem pyOrZero_eq_getD (x : Option ℚ) : pyOrZero x = x.getD 0 := by
  cases x with
  | none => rfl
  | some v =>
      by_cases hv : v = 0
      · simp [pyOrZero, hv]
      · simp [pyOrZero, hv]

/-- The crop lookup fails exactly on the crops outside the table. -/
theorem baseline_npk_eq_none_iff (c : String) :
    baseline_npk c = none ↔ c ∉ supportedCrops := by
  unfold baseline_npk supportedCrops
  split_ifs with h1 h2 h3 h4 h5 <;> simp_all

/-- A `some` entry of a list of options survives into `reduceOption` at some
position. -/
theorem reduceOption_split_of_get {α : Type} (l : List (Option α)) (j : ℕ)
    (hj : j < l.length) (b : α) (hb : l.get ⟨j, hj⟩ = some b) :
    ∃ p q, l.reduceOption = p ++ b :: q := by
  induction l generalizing j with
  | nil => simp at hj
  | cons x t ih =>
      cases j with
      | zero =>
          simp only [List.get] at hb
          subst hb
          exact ⟨[], t.reduceOption, by simp [List.reduceOption_cons_of_some]⟩
      | succ j' =>
          have hj' : j' < t.length := by simpa using hj
          obtain ⟨p, q, hpq⟩ := ih j' hj' (by simpa using hb)
          cases x with
          | none =>
              exact ⟨p, q, by simp [List.reduceOption_cons_of_none, hpq]⟩
          | some c =>
              exact ⟨c :: p, q, by simp [List.reduceOption_cons_of_some, hpq]⟩

/-- `reduceOption` keeps two `some` entries in their original relative
order. -/
theorem reduceOption_order {α : Type} (l : List (Option α)) (i j : ℕ)
    (hij : i < j) (hj : j < l.length) (a b : α)
    (ha : l.get ⟨i, Nat.lt_trans hij hj⟩ = some a)
    (hb : l.get ⟨j, hj⟩ = some b) :
    ∃ l1 l2 l3, l.reduceOption = l1 ++ a :: (l2 ++ b :: l3) := by
  induction l generalizing i j with
  | nil => simp at hj
  | cons x t ih =>
      cases i with
      | zero =>
          cases j with
          | zero => omega
          | succ j' =>
              simp only [List.get] at ha
              subst ha
              have hj' : j' < t.length := by simpa using hj
              obtain ⟨p, q, hpq⟩ := reduceOption_split_of_get t j' hj' b (by simpa using hb)
              exact ⟨[], p, q, by simp [List.reduceOption_cons_of_some, hpq]⟩
      | succ i' =>
          cases j with
          | zero => omega
          | succ j' =>
              have hj' : j' < t.length := by simpa using hj
              obtain ⟨l1, l2, l3, h⟩ :=
                ih i' j' (by omega) hj' (by simpa using ha) (by simpa using hb)
              cases x with
              | none =>
                  exact ⟨l1, l2, l3, by simp [List.reduceOption_cons_of_none, h]⟩
              | some c =>
                  exact ⟨c :: l1, l2, l3, by simp [List.reduceOption_cons_of_some, h]⟩

/-! ## Claims -/

/-- C1: for crop `"wheat"` with `N=100, P=5, K=50, OC=0.3, EC=1, pH=7` and
the other readings absent, the engine returns exactly the plan
`{DAP_kg/ha: 120, Urea_kg/ha: 1, Compost_kg/ha: 1000}` and exactly the three
messages for DAP, Urea and Compost, in that order, with no other message. -/
theorem C1_wheat_end_to_end :
    recommend_for_farmer
      { N := .num 100, P := .num 5, K := .num 50, S := .pynone, Zn := .pynone,
        Fe := .pynone, Cu := .pynone, Mn := .pynone, B := .pynone,
        OC := .num 0.3, pH := .num 7, EC := .num 1 } "wheat"
    = .ok ([dapMsg "wheat" 120, ureaMsg "wheat" 1, compostMsg 1],
        { dap := some 120, urea := some 1, mop := none, gypsum := none,
          znso4 := none, borax := none, compost := some 1000 }) := by
  with_unfolding_all rfl

/-- C2: `interpret` passes numeric values through unchanged; after stripping
and lowercasing it maps `low`/`l` to `low*0.8`, `medium`/`med`/`m` to
`(low+high)/2`, `high`/`h` to `high*1.2`; any other string goes to the
`float` parse, whose failure yields absence; and the five concrete examples
at thresholds `(10, 25)` evaluate as the spec states. -/
theorem C2_interpret_contract (low high x : ℚ) (s : String) :
    interpret (.num x) low high = some x
  ∧ ((pyLower (pyStrip s) = "low" ∨ pyLower (pyStrip s) = "l") →
      interpret (.str s) low high = some (low * 0.8))
  ∧ ((pyLower (pyStrip s) = "medium" ∨ pyLower (pyStrip s) = "med" ∨
        pyLower (pyStrip s) = "m") →
      interpret (.str s) low high = some ((low + high) / 2))
  ∧ ((pyLower (pyStrip s) = "high" ∨ pyLower (pyStrip s) = "h") →
      interpret (.str s) low high = some (high * 1.2))
  ∧ (pyLower (pyStrip s) ∉ (["low", "l", "medium", "med", "m", "high", "h"] : List String) →
      interpret (.str s) low high = pyFloatOfString s)
  ∧ interpret (.str "low") 10 25 = some 8
  ∧ interpret (.str "medium") 10 25 = some 17.5
  ∧ interpret (.str "high") 10 25 = some 30
  ∧ interpret (.str "37.5") 10 25 = some 37.5
  ∧ interpret (.str "garbage") 10 25 = none := by
  refine ⟨rfl, ?_, ?_, ?_, ?_, ?_, ?_, ?_, ?_, ?_⟩
  · rintro (h | h) <;> simp [interpret, h]
  · rintro (h | h | h) <;> simp [interpret, h]
  · rintro (h | h) <;> simp [interpret, h]
  · intro h
    simp only [List.mem_cons, List.mem_singleton, not_or] at h
    obtain ⟨h1, h2, h3, h4, h5, h6, h7, -⟩ := h
    simp [interpret, h1, h2, h3, h4, h5, h6, h7]
  · with_unfolding_all rfl
  · with_unfolding_all rfl
  · with_unfolding_all rfl
  · with_unfolding_all rfl
  · with_unfolding_all rfl

/-- Witness for C2: the token, parse and numeric branches at concrete
inputs. -/
theorem C2_interpret_contract_witness :
    interpret (.str " LOW ") 10 25 = some (10 * 0.8)
  ∧ interpret (.str "Med") 10 25 = some ((10 + 25) / 2)
  ∧ interpret (.str " h") 10 25 = some (25 * 1.2)
  ∧ interpret (.str "x2") 10 25 = pyFloatOfString "x2"
  ∧ interpret (.num 3) 10 25 = some 3 :=
  ⟨(C2_interpret_contract 10 25 3 " LOW ").2.1 (Or.inl (by decide)),
   (C2_interpret_contract 10 25 3 "Med").2.2.1 (Or.inr (Or.inl (by decide))),
   (C2_interpret_contract 10 25 3 " h").2.2.2.1 (Or.inr (by decide)),
   (C2_interpret_contract 10 25 3 "x2").2.2.2.2.1 (by decide),
   (C2_interpret_contract 10 25 3 "x2").1⟩

/-- C3: the engine fails, with the descriptive unsupported-crop message,
exactly when the lowercased crop name is outside the five supported crops;
the outcome does not depend on the readings, and a supported crop in any
letter case always succeeds. -/
theorem C3_unsupported_crop (inputs : Inputs) (crop_name : String) :
    (pyLower crop_name ∉ supportedCrops →
      recommend_for_farmer inputs crop_name =
        .error ("Unsupported crop: " ++ pyLower crop_name))
  ∧ (pyLower crop_name ∈ supportedCrops →
      ∃ out, recommend_for_farmer inputs crop_name = .ok out) := by
  constructor
  · intro h
    have hb : baseline_npk (pyLower crop_name) = none :=
      (baseline_npk_eq_none_iff _).mpr h
    simp only [recommend_for_farmer, hb]
  · intro h
    cases hb : baseline_npk (pyLower crop_name) with
    | none => exact absurd ((baseline_npk_eq_none_iff _).mp hb) (by simpa using h)
    | some base =>
        exact ⟨_, by simp only [recommend_for_farmer, hb]; rfl⟩

/-- Witness for C3: `"soybean"` fails regardless of readings, `"WHEAT"`
succeeds. -/
theorem C3_unsupported_crop_witness :
    recommend_for_farmer emptyInputs "soybean" =
      .error ("Unsupported crop: " ++ pyLower "soybean")
  ∧ ∃ out, recommend_for_farmer emptyInputs "WHEAT" = .ok out :=
  ⟨(C3_unsupported_crop emptyInputs "soybean").1 (by decide),
   (C3_unsupported_crop emptyInputs "WHEAT").2 (by decide)⟩

/-- Counterexample to C4: the claim extends the organic-carbon adjustment to
a present reading of exactly `0`, but the guard `if OC and OC < 0.5` treats
`0.0` as falsy.  With wheat baselines and `OC = 0` the code leaves
`need_N = 120`, while the claim demands `120 * 1.1`. -/
theorem C4_counterexample :
    (needsOf (120, 60, 40) none none none (some 0) none).1 = 120
  ∧ (120 : ℚ) ≠ 120 * 1.1 := by
  constructor
  · with_unfolding_all rfl
  · norm_num

/-- C4 as amended: the raw gaps are `max(0, baseline - reading-or-0)`; the
organic-carbon factor `1.1` applies to the nitrogen gap when OC is present,
nonzero and below `0.5`; the salinity factor `0.8` applies to all three gaps
when EC is present and above `4`; both compound, the OC scaling being applied
before the EC scaling. -/
theorem C4_gap_adjustments (base : ℚ × ℚ × ℚ) (N P K OC EC : Option ℚ) :
    needsOf base N P K OC EC =
      ((if gtTrigger EC 4 then (0.8 : ℚ) else 1) *
         ((if ltTrigger OC 0.5 then (1.1 : ℚ) else 1) * max 0 (base.1 - N.getD 0)),
       (if gtTrigger EC 4 then (0.8 : ℚ) else 1) * max 0 (base.2.1 - P.getD 0),
       (if gtTrigger EC 4 then (0.8 : ℚ) else 1) * max 0 (base.2.2 - K.getD 0)) := by
  have hOC : (ref_thresholds "OC").1 = 0.5 := by with_unfolding_all rfl
  unfold needsOf
  rw [pyOrZero_eq_getD, pyOrZero_eq_getD, pyOrZero_eq_getD, hOC]
  split_ifs <;> refine Prod.ext ?_ (Prod.ext ?_ ?_) <;> simp <;> ring

/-- Counterexample to C5: the claim makes a present reading of exactly `0`
trigger the deficiency rules, but the guard `if S and S < 10` treats `0.0`
as falsy.  For wheat with `S = 0` the plan has no Gypsum entry, while the
claim demands `Gypsum_kg/ha = ceil((10 - 0) / 0.18)`. -/
theorem C5_counterexample :
    ((recommend_for_farmer { emptyInputs with S := .num 0 } "wheat").toOption.map
        fun r => r.2.gypsum) = some none
  ∧ (none : Option ℤ) ≠ some (round_up ((10 - 0) / FERT_gypsum_S)) := by
  constructor
  · with_unfolding_all rfl
  · exact (Option.some_ne_none _).symm

/-- C5 as amended: a present, nonzero reading of S below `10` puts
`Gypsum_kg/ha = ceil((10 - S) / 0.18)` in the plan, and likewise Zn below
`0.6` yields `ZnSO4_kg/ha = ceil((0.6 - Zn) / 0.21)` and B below `0.5`
yields `Borax_kg/ha = ceil((0.5 - B) / 0.11)`; a present reading of exactly
`0` is treated as absent by these trigger guards. -/
theorem C5_trigger_doses (needs : ℚ × ℚ × ℚ) (S Zn B OC : Option ℚ) :
    (∀ v, S = some v → v ≠ 0 → v < 10 →
      (planOf needs S Zn B OC).gypsum = some (round_up ((10 - v) / FERT_gypsum_S)))
  ∧ (∀ v, Zn = some v → v ≠ 0 → v < 0.6 →
      (planOf needs S Zn B OC).znso4 = some (round_up ((0.6 - v) / FERT_znso4_Zn)))
  ∧ (∀ v, B = some v → v ≠ 0 → v < 0.5 →
      (planOf needs S Zn B OC).borax = some (round_up ((0.5 - v) / FERT_borax_B)))
  ∧ (∀ v, S = some v → v = 0 → (planOf needs S Zn B OC).gypsum = none) := by
  have hS : (ref_thresholds "S").1 = 10 := by with_unfolding_all rfl
  have hZn : (ref_thresholds "Zn").1 = 0.6 := by with_unfolding_all rfl
  have hB : (ref_thresholds "B").1 = 0.5 := by with_unfolding_all rfl
  refine ⟨?_, ?_, ?_, ?_⟩
  · intro v hv hne hlt
    subst hv
    simp [planOf, gypsum_needed, ltTrigger, hS, hne, hlt]
  · intro v hv hne hlt
    subst hv
    simp [planOf, znso4_needed, ltTrigger, hZn, hne, hlt]
  · intro v hv hne hlt
    subst hv
    simp [planOf, borax_needed, ltTrigger, hB, hne, hlt]
  · intro v hv hz
    subst hv
    simp [planOf, gypsum_needed, ltTrigger, hz]

/-- Witness for C5 as amended: concrete low readings `S=5`, `Zn=0.3`,
`B=0.2` and the zero-sulfur case. -/
theorem C5_trigger_doses_witness :
    (planOf (0, 0, 0) (some 5) (some 0.3) (some 0.2) none).gypsum
      = some (round_up ((10 - 5) / FERT_gypsum_S))
  ∧ (planOf (0, 0, 0) (some 5) (some 0.3) (some 0.2) none).znso4
      = some (round_up ((0.6 - 0.3) / FERT_znso4_Zn))
  ∧ (planOf (0, 0, 0) (some 5) (some 0.3) (some 0.2) none).borax
      = some (round_up ((0.5 - 0.2) / FERT_borax_B))
  ∧ (planOf (0, 0, 0) (some 0) none none none).gypsum = none :=
  ⟨(C5_trigger_doses (0, 0, 0) (some 5) (some 0.3) (some 0.2) none).1 5 rfl
      (by norm_num) (by norm_num),
   (C5_trigger_doses (0, 0, 0) (some 5) (some 0.3) (some 0.2) none).2.1 0.3 rfl
      (by norm_num) (by norm_num),
   (C5_trigger_doses (0, 0, 0) (some 5) (some 0.3) (some 0.2) none).2.2.1 0.2 rfl
      (by norm_num) (by norm_num),
   (C5_trigger_doses (0, 0, 0) (some 0) none none none).2.2.2 0 rfl rfl⟩

/-- C6: a positive phosphate gap records `DAP_kg/ha = ceil(need_P2O5/0.46)`
and produces the nitrogen credit `dap * 0.18`; a non-positive gap records no
DAP and no credit; the remaining nitrogen is the credit subtracted from
`need_N`, floored at `0`, and `Urea_kg/ha = ceil(remaining_N/0.46)` is
recorded exactly when it is strictly positive. -/
theorem C6_dap_credit_urea (nN nP nK : ℚ) (S Zn B OC : Option ℚ) :
    (nP > 0 →
      (planOf (nN, nP, nK) S Zn B OC).dap = some (round_up (nP / FERT_dap_P2O5))
      ∧ N_from_dap nP = ((round_up (nP / FERT_dap_P2O5) : ℤ) : ℚ) * FERT_dap_N)
  ∧ (nP ≤ 0 → (planOf (nN, nP, nK) S Zn B OC).dap = none ∧ N_from_dap nP = 0)
  ∧ remaining_N nN nP = max 0 (nN - N_from_dap nP)
  ∧ (remaining_N nN nP > 0 →
      (planOf (nN, nP, nK) S Zn B OC).urea
        = some (round_up (remaining_N nN nP / FERT_urea_N)))
  ∧ (¬ remaining_N nN nP > 0 → (planOf (nN, nP, nK) S Zn B OC).urea = none) := by
  refine ⟨?_, ?_, rfl, ?_, ?_⟩
  · intro h
    constructor
    · simp [planOf, dap_needed, h]
    · simp [N_from_dap, dap_needed, h]
  · intro h
    have h' : ¬ nP > 0 := not_lt.mpr h
    constructor
    · simp [planOf, dap_needed, h']
    · simp [N_from_dap, dap_needed, h']
  · intro h
    simp [planOf, urea_needed, h]
  · intro h
    simp [planOf, urea_needed, h]

/-- Witness for C6: the wheat-scenario gaps `need_N = 22`, `need_P2O5 = 55`
(DAP 120, credit 21.6, remaining 0.4, Urea 1) and a non-positive phosphate
gap. -/
theorem C6_dap_credit_urea_witness :
    (planOf (22, 55, 0) none none none none).dap = some (round_up (55 / FERT_dap_P2O5))
  ∧ N_from_dap 55 = ((round_up ((55 : ℚ) / FERT_dap_P2O5) : ℤ) : ℚ) * FERT_dap_N
  ∧ (planOf (22, 55, 0) none none none none).urea
      = some (round_up (remaining_N 22 55 / FERT_urea_N))
  ∧ (planOf (22, 0, 0) none none none none).dap = none :=
  ⟨((C6_dap_credit_urea 22 55 0 none none none none).1 (by norm_num)).1,
   ((C6_dap_credit_urea 22 55 0 none none none none).1 (by norm_num)).2,
   (C6_dap_credit_urea 22 55 0 none none none none).2.2.2.1
      (by with_unfolding_all exact of_decide_eq_true rfl),
   ((C6_dap_credit_urea 22 0 0 none none none none).2.1 (by norm_num)).1⟩

/-- Counterexample to C7: the claim makes a present micronutrient reading of
exactly `0` trigger its foliar advisory, but the guard `if Fe and Fe < 4.5`
treats `0.0` as falsy: for wheat with `Fe = 0` the iron advisory is not in
the output. -/
theorem C7_counterexample :
    ((recommend_for_farmer { emptyInputs with Fe := .num 0 } "wheat").toOption.map
        fun r => decide (feMsg ∈ r.1)) = some false := by
  with_unfolding_all rfl

/-- C7 as amended: a present, nonzero reading of Fe, Cu or Mn below its low
threshold (`4.5`, `0.2`, `2`) puts the corresponding foliar-spray advisory in
the message list while leaving the dosage plan untouched; a present, nonzero
pH below `6` yields the acidic-soil advisory and a pH above `8.5` the
alkaline-soil advisory; an EC above `4` yields the salinity advisory. -/
theorem C7_advisories (crop_name : String) (needs : ℚ × ℚ × ℚ)
    (S Zn Fe Cu Mn B OC pH EC : Option ℚ) :
    (∀ v, Fe = some v → v ≠ 0 → v < 4.5 →
      feMsg ∈ messagesOf crop_name needs S Zn Fe Cu Mn B OC pH EC)
  ∧ (∀ v, Cu = some v → v ≠ 0 → v < 0.2 →
      cuMsg ∈ messagesOf crop_name needs S Zn Fe Cu Mn B OC pH EC)
  ∧ (∀ v, Mn = some v → v ≠ 0 → v < 2 →
      mnMsg ∈ messagesOf crop_name needs S Zn Fe Cu Mn B OC pH EC)
  ∧ (∀ v, pH = some v → v ≠ 0 → v < 6 →
      acidMsg ∈ messagesOf crop_name needs S Zn Fe Cu Mn B OC pH EC)
  ∧ (∀ v, pH = some v → v > 8.5 →
      alkMsg ∈ messagesOf crop_name needs S Zn Fe Cu Mn B OC pH EC)
  ∧ (∀ v, EC = some v → v > 4 →
      salinityMsg ∈ messagesOf crop_name needs S Zn Fe Cu Mn B OC pH EC)
  ∧ (∀ base N P K, (runEngine crop_name base N P K S Zn Fe Cu Mn B OC pH EC).2
      = (runEngine crop_name base N P K S Zn none none none B OC none EC).2) := by
  have hFe : (ref_thresholds "Fe").1 = 4.5 := by with_unfolding_all rfl
  have hCu : (ref_thresholds "Cu").1 = 0.2 := by with_unfolding_all rfl
  have hMn : (ref_thresholds "Mn").1 = 2 := by with_unfolding_all rfl
  refine ⟨?_, ?_, ?_, ?_, ?_, ?_, fun base N P K => rfl⟩
  · intro v hv hne hlt
    subst hv
    have : ltTrigger (some v) (ref_thresholds "Fe").1 = true := by
      rw [hFe]; simp [ltTrigger, hne, hlt]
    simp [messagesOf, List.reduceOption_mem_iff, ruleMessages, this]
  · intro v hv hne hlt
    subst hv
    have : ltTrigger (some v) (ref_thresholds "Cu").1 = true := by
      rw [hCu]; simp [ltTrigger, hne, hlt]
    simp [messagesOf, List.reduceOption_mem_iff, ruleMessages, this]
  · intro v hv hne hlt
    subst hv
    have : ltTrigger (some v) (ref_thresholds "Mn").1 = true := by
      rw [hMn]; simp [ltTrigger, hne, hlt]
    simp [messagesOf, List.reduceOption_mem_iff, ruleMessages, this]
  · intro v hv hne hlt
    subst hv
    have : ltTrigger (some v) 6 = true := by
      simp [ltTrigger, hne, hlt]
    simp [messagesOf, List.reduceOption_mem_iff, ruleMessages, this]
  · intro v hv hgt
    subst hv
    have h1 : ltTrigger (some v) 6 = false := by
      simp only [ltTrigger, decide_eq_false_iff_not, not_and, not_lt]
      intro; linarith
    have h2 : gtTrigger (some v) 8.5 = true := by
      have hne : v ≠ 0 := by intro h; rw [h] at hgt; norm_num at hgt
      simp [gtTrigger, hne, hgt]
    simp [messagesOf, List.reduceOption_mem_iff, ruleMessages, h1, h2]
  · intro v hv hgt
    subst hv
    have : gtTrigger (some v) 4 = true := by
      have hne : v ≠ 0 := by intro h; rw [h] at hgt; norm_num at hgt
      simp [gtTrigger, hne, hgt]
    simp [messagesOf, List.reduceOption_mem_iff, ruleMessages, this]

/-- Witness for C7 as amended: concrete low micronutrients, acidic pH and a
saline followup at wide-open readings. -/
theorem C7_advisories_witness :
    feMsg ∈ messagesOf "wheat" (0, 0, 0) none none (some 1) (some 0.1) (some 1) none none (some 5) (some 6)
  ∧ cuMsg ∈ messagesOf "wheat" (0, 0, 0) none none (some 1) (some 0.1) (some 1) none none (some 5) (some 6)
  ∧ mnMsg ∈ messagesOf "wheat" (0, 0, 0) none none (some 1) (some 0.1) (some 1) none none (some 5) (some 6)
  ∧ acidMsg ∈ messagesOf "wheat" (0, 0, 0) none none (some 1) (some 0.1) (some 1) none none (some 5) (some 6)
  ∧ salinityMsg ∈ messagesOf "wheat" (0, 0, 0) none none (some 1) (some 0.1) (some 1) none none (some 5) (some 6)
  ∧ alkMsg ∈ messagesOf "wheat" (0, 0, 0) none none none none none none none (some 9) none :=
  ⟨(C7_advisories "wheat" (0, 0, 0) none none (some 1) (some 0.1) (some 1) none none (some 5) (some 6)).1
      1 rfl (by norm_num) (by norm_num),
   (C7_advisories "wheat" (0, 0, 0) none none (some 1) (some 0.1) (some 1) none none (some 5) (some 6)).2.1
      0.1 rfl (by norm_num) (by norm_num),
   (C7_advisories "wheat" (0, 0, 0) none none (some 1) (some 0.1) (some 1) none none (some 5) (some 6)).2.2.1
      1 rfl (by norm_num) (by norm_num),
   (C7_advisories "wheat" (0, 0, 0) none none (some 1) (some 0.1) (some 1) none none (some 5) (some 6)).2.2.2.1
      5 rfl (by norm_num) (by norm_num),
   (C7_advisories "wheat" (0, 0, 0) none none (some 1) (some 0.1) (some 1) none none (some 5) (some 6)).2.2.2.2.2.1
      6 rfl (by norm_num),
   (C7_advisories "wheat" (0, 0, 0) none none none none none none none (some 9) none).2.2.2.2.1
      9 rfl (by norm_num)⟩

/-- C8: every quantity in the plan is an integer at least as large as the
exact unrounded requirement divided by the content fraction of the product,
and an entry is only present when its triggering gap is strictly positive. -/
theorem C8_ceiling_property (base : ℚ × ℚ × ℚ) (N P K S Zn B OC EC : Option ℚ)
    (needs : ℚ × ℚ × ℚ) (hneeds : needs = needsOf base N P K OC EC)
    (plan : Plan) (hplan : plan = planOf needs S Zn B OC) :
    (∀ d, plan.dap = some d → needs.2.1 > 0 ∧ needs.2.1 / FERT_dap_P2O5 ≤ (d : ℚ))
  ∧ (∀ u, plan.urea = some u →
      remaining_N needs.1 needs.2.1 > 0
      ∧ remaining_N needs.1 needs.2.1 / FERT_urea_N ≤ (u : ℚ))
  ∧ (∀ m, plan.mop = some m → needs.2.2 > 0 ∧ needs.2.2 / FERT_mop_K2O ≤ (m : ℚ))
  ∧ (∀ g, plan.gypsum = some g →
      10 - S.getD 0 > 0 ∧ (10 - S.getD 0) / FERT_gypsum_S ≤ (g : ℚ))
  ∧ (∀ z, plan.znso4 = some z →
      0.6 - Zn.getD 0 > 0 ∧ (0.6 - Zn.getD 0) / FERT_znso4_Zn ≤ (z : ℚ))
  ∧ (∀ b, plan.borax = some b →
      0.5 - B.getD 0 > 0 ∧ (0.5 - B.getD 0) / FERT_borax_B ≤ (b : ℚ))
  ∧ (∀ c, plan.compost = some c →
      0.5 - OC.getD 0 > 0 ∧ (0.5 - OC.getD 0) / FERT_compost_OC ≤ (c : ℚ)) := by
  subst hplan
  have hS : (ref_thresholds "S").1 = 10 := by with_unfolding_all rfl
  have hZn : (ref_thresholds "Zn").1 = 0.6 := by with_unfolding_all rfl
  have hB : (ref_thresholds "B").1 = 0.5 := by with_unfolding_all rfl
  have hOC : (ref_thresholds "OC").1 = 0.5 := by with_unfolding_all rfl
  refine ⟨?_, ?_, ?_, ?_, ?_, ?_, ?_⟩
  · intro d hd
    simp only [planOf, dap_needed] at hd
    split_ifs at hd with h
    · cases hd
      exact ⟨h, Int.le_ceil _⟩
  · intro u hu
    simp only [planOf, urea_needed] at hu
    split_ifs at hu with h
    · cases hu
      exact ⟨h, Int.le_ceil _⟩
  · intro m hm
    simp only [planOf, mop_needed] at hm
    split_ifs at hm with h
    · cases hm
      exact ⟨h, Int.le_ceil _⟩
  · intro g hg
    simp only [planOf, gypsum_needed, hS] at hg
    split_ifs at hg with h
    · cases hg
      match S, h with
      | some v, h =>
          simp only [ltTrigger, decide_eq_true_eq] at h
          refine ⟨by simp [Option.getD]; linarith [h.2], ?_⟩
          exact Int.le_ceil _
  · intro z hz
    simp only [planOf, znso4_needed, hZn] at hz
    split_ifs at hz with h
    · cases hz
      match Zn, h with
      | some v, h =>
          simp only [ltTrigger, decide_eq_true_eq] at h
          refine ⟨by simp [Option.getD]; linarith [h.2], ?_⟩
          exact Int.le_ceil _
  · intro b hb
    simp only [planOf, borax_needed, hB] at hb
    split_ifs at hb with h
    · cases hb
      match B, h with
      | some v, h =>
          simp only [ltTrigger, decide_eq_true_eq] at h
          refine ⟨by simp [Option.getD]; linarith [h.2], ?_⟩
          exact Int.le_ceil _
  · intro c hc
    simp only [planOf, compost_units, hOC, Option.map] at hc
    split_ifs at hc with h
    · cases hc
      match OC, h with
      | some v, h =>
          simp only [ltTrigger, decide_eq_true_eq] at h
          have hgap : (0.5 : ℚ) - v > 0 := by linarith [h.2]
          refine ⟨by simpa using hgap, ?_⟩
          have hle : ((0.5 : ℚ) - v) / FERT_compost_OC ≤
              ((round_up (((0.5 : ℚ) - v) / FERT_compost_OC) : ℤ) : ℚ) :=
            Int.le_ceil _
          have hpos : (1 : ℤ) ≤ round_up (((0.5 : ℚ) - v) / FERT_compost_OC) := by
            have : (0 : ℚ) < ((0.5 : ℚ) - v) / FERT_compost_OC := by
              apply div_pos hgap
              norm_num [FERT_compost_OC]
            exact Int.ceil_pos.mpr this
          have hcast : ((round_up (((0.5 : ℚ) - v) / FERT_compost_OC) : ℤ) : ℚ) ≤
              ((round_up (((0.5 : ℚ) - v) / FERT_compost_OC) * 1000 : ℤ) : ℚ) := by
            push_cast
            have h1 : (1 : ℚ) ≤ ((round_up (((0.5 : ℚ) - v) / FERT_compost_OC) : ℤ) : ℚ) := by
              exact_mod_cast hpos
            nlinarith
          calc ((0.5 : ℚ) - v) / FERT_compost_OC
              ≤ _ := hle
            _ ≤ _ := hcast

/-- Witness for C8: in the wheat scenario the DAP entry `120` dominates
`55 / 0.46` and the Compost entry `1000` dominates `(0.5 - 0.3) / 0.5`. -/
theorem C8_ceiling_property_witness :
    ((needsOf (120, 60, 40) (some 100) (some 5) (some 50) (some 0.3) (some 1)).2.1 > 0
      ∧ (needsOf (120, 60, 40) (some 100) (some 5) (some 50) (some 0.3) (some 1)).2.1
          / FERT_dap_P2O5 ≤ ((120 : ℤ) : ℚ))
  ∧ ((0.5 : ℚ) - (some (0.3 : ℚ)).getD 0 > 0
      ∧ ((0.5 : ℚ) - (some (0.3 : ℚ)).getD 0) / FERT_compost_OC ≤ ((1000 : ℤ) : ℚ)) :=
  ⟨(C8_ceiling_property (120, 60, 40) (some 100) (some 5) (some 50) none none none
      (some 0.3) (some 1) _ rfl _ rfl).1 120 (by with_unfolding_all rfl),
   (C8_ceiling_property (120, 60, 40) (some 100) (some 5) (some 50) none none none
      (some 0.3) (some 1) _ rfl _ rfl).2.2.2.2.2.2 1000 (by with_unfolding_all rfl)⟩

/-- C9: the message list is the fired entries of the fixed rule sequence DAP,
Urea, MOP, Gypsum, ZnSO4, Borax, Compost, Fe, Cu, Mn, pH, EC: whenever the
rules at positions `i < j` both fire, the message of rule `i` appears before
that of rule `j`, and each fired rule contributes exactly one message (the
output length equals the number of fired rules). -/
theorem C9_message_order (crop_name : String) (needs : ℚ × ℚ × ℚ)
    (S Zn Fe Cu Mn B OC pH EC : Option ℚ) (i j : ℕ) (hij : i < j)
    (hj : j < (ruleMessages crop_name needs S Zn Fe Cu Mn B OC pH EC).length)
    (a b : String)
    (ha : (ruleMessages crop_name needs S Zn Fe Cu Mn B OC pH EC).get
        ⟨i, Nat.lt_trans hij hj⟩ = some a)
    (hb : (ruleMessages crop_name needs S Zn Fe Cu Mn B OC pH EC).get ⟨j, hj⟩ = some b) :
    (∃ l1 l2 l3, messagesOf crop_name needs S Zn Fe Cu Mn B OC pH EC
        = l1 ++ a :: (l2 ++ b :: l3))
  ∧ (messagesOf crop_name needs S Zn Fe Cu Mn B OC pH EC).length
      = ((ruleMessages crop_name needs S Zn Fe Cu Mn B OC pH EC).filter
          fun o => Option.isSome o).length := by
  constructor
  · exact reduceOption_order _ i j hij hj a b ha hb
  · simpa [messagesOf] using
      (List.reduceOption_length_eq
        (l := ruleMessages crop_name needs S Zn Fe Cu Mn B OC pH EC))

/-- Witness for C9: with only wheat baselines (all readings absent) the DAP
rule (position 0) and the MOP rule (position 2) both fire and their messages
appear in order. -/
theorem C9_message_order_witness :
    (∃ l1 l2 l3, messagesOf "wheat" (120, 60, 40) none none none none none none none none none
        = l1 ++ dapMsg "wheat" 131 :: (l2 ++ mopMsg "wheat" 67 :: l3))
  ∧ (messagesOf "wheat" (120, 60, 40) none none none none none none none none none).length
      = ((ruleMessages "wheat" (120, 60, 40) none none none none none none none none none).filter
          fun o => Option.isSome o).length :=
  C9_message_order "wheat" (120, 60, 40) none none none none none none none none none
    0 2 (by norm_num) (by with_unfolding_all exact of_decide_eq_true rfl)
    (dapMsg "wheat" 131) (mopMsg "wheat" 67)
    (by with_unfolding_all rfl) (by with_unfolding_all rfl)
